import Mathlib

/-!
Shallow embedding of the ApointmentServer backend (Express + Mongoose).

Sources embedded:
- src/app.js                      : server wiring and the authenticateUser middleware
- src/routes/appointmentRoute.js  : appointment routes (book, list, update status, cancel)
- src/unnamed/part_000            : models/Appointment.js (AppointmentSchema)
- src/unnamed/part_001            : routes/users.js (register, login, list users, list doctors)

Mongo documents are modelled as Lean structures, the two collections as lists,
ObjectIds as natural numbers, and each route handler as a pure function from
the request data and the store state to a response value and the new state.
Mongoose `save()` runs schema validation (required fields, the `enum` list on
`status`), which is modelled explicitly from the AppointmentSchema source.
-/

namespace ApptServer

/-- A user document. The User schema file (models/User.js) is not under src/;
the fields are those the routes and the spec use: id, name, email, stored
password hash, role, gender. -/
structure User where
  id : Nat
  name : String
  email : String
  password : String
  role : String
  gender : String
deriving Repr, DecidableEq

/-- An appointment document, from AppointmentSchema (src/unnamed/part_000). -/
structure Appointment where
  id : Nat
  patient : Nat
  doctor : Nat
  date : Nat
  time : String
  status : String
  reason : String
  createdAt : Nat
deriving Repr, DecidableEq

/-- The `enum` list on AppointmentSchema.status. -/
def statusEnum : List String := ["pending", "confirmed", "canceled", "completed"]

/-- Mongoose save-time validation of an appointment document, from
AppointmentSchema: `time` and `reason` are `required` strings (a required
string must be non-empty), and `status`, being always set in this model, must
belong to the declared `enum`. `patient`, `doctor`, `date`, `createdAt` are
always present here, so their `required`/default clauses are trivially met. -/
def appointmentValidate (a : Appointment) : Prop :=
  a.time ≠ "" ∧ a.reason ≠ "" ∧ a.status ∈ statusEnum

instance (a : Appointment) : Decidable (appointmentValidate a) := by
  unfold appointmentValidate; exact inferInstance

/-- `User.findById` on the users collection. -/
def findUserById (users : List User) (uid : Nat) : Option User :=
  users.find? (fun u => u.id = uid)

/-- `User.findOne({ email })` on the users collection. -/
def findUserByEmail (users : List User) (email : String) : Option User :=
  users.find? (fun u => u.email = email)

/-- `Appointment.findById` on the appointments collection. -/
def findAppointmentById (db : List Appointment) (aid : Nat) : Option Appointment :=
  db.find? (fun a => a.id = aid)

/-! ### Access Guard: authenticateUser middleware (src/app.js) -/

/-- The credential presented in the `token` header, as seen by `jwt.verify`:
either it verifies and decodes to a payload carrying a user id, or
`jwt.verify` throws (malformed, wrongly signed, or expired token). -/
inductive Credential where
  | valid (decodedId : Nat)
  | invalid
deriving Repr, DecidableEq

/-- Outcome of the middleware: either the resolved user is attached to the
request, or the request is rejected with an HTTP status and message. -/
inductive AuthResult where
  | ok (u : User)
  | err (httpStatus : Nat) (message : String)
deriving Repr, DecidableEq

/-- The authenticateUser middleware. No token header: 401. `jwt.verify`
throws (caught by the catch block): 400 "Invalid token". Token verifies but
`User.findById(decoded.id)` resolves no user: 401 "Invalid token". Otherwise
the request proceeds with the resolved user. -/
def authenticateUser (users : List User) (tokenHeader : Option Credential) : AuthResult :=
  match tokenHeader with
  | none => .err 401 "Access denied. No token provided."
  | some .invalid => .err 400 "Invalid token"
  | some (.valid decodedId) =>
    match findUserById users decodedId with
    | none => .err 401 "Invalid token"
    | some u => .ok u

/-! ### POST /appointment/ : book an appointment -/

/-- The request body of POST /appointment/: the route destructures
`doctorId, date, time, reason` and ignores any other field; a `status`
field, if present, is carried here to state that it is ignored. -/
structure BookBody where
  doctorId : Nat
  date : Nat
  time : String
  reason : String
  status : Option String
deriving Repr, DecidableEq

inductive BookResult where
  | forbidden
  | doctorNotFound
  | booked (a : Appointment)
  | saveError
deriving Repr, DecidableEq

/-- HTTP status of each book outcome, from the route's res.status calls. -/
def BookResult.httpStatus : BookResult → Nat
  | .forbidden => 403
  | .doctorNotFound => 404
  | .booked _ => 201
  | .saveError => 500

/-- POST /appointment/ handler (after authenticateUser). Non-patient: 403.
`User.findById(doctorId)` missing or not role doctor: 404. Otherwise a new
appointment {patient: actor.id, doctor: doctorId, date, time, reason,
status: 'pending'} is saved; `newId` models the fresh ObjectId and `now`
the `Date.now` default of createdAt; save-time validation failure is the
caught 500 branch. -/
def bookAppointment (users : List User) (db : List Appointment) (actor : User)
    (body : BookBody) (newId now : Nat) : BookResult × List Appointment :=
  if actor.role ≠ "patient" then (.forbidden, db)
  else
    match findUserById users body.doctorId with
    | none => (.doctorNotFound, db)
    | some doctor =>
      if doctor.role ≠ "doctor" then (.doctorNotFound, db)
      else
        let appt : Appointment :=
          { id := newId, patient := actor.id, doctor := body.doctorId,
            date := body.date, time := body.time, status := "pending",
            reason := body.reason, createdAt := now }
        if appointmentValidate appt then (.booked appt, db ++ [appt])
        else (.saveError, db)

/-! ### PUT /appointment/:id : update appointment status -/

inductive UpdateResult where
  | forbiddenRole
  | notFound
  | forbiddenOwn
  | updated (a : Appointment)
  | saveError
deriving Repr, DecidableEq

/-- HTTP status of each update outcome, from the route's res.status calls. -/
def UpdateResult.httpStatus : UpdateResult → Nat
  | .forbiddenRole => 403
  | .notFound => 404
  | .forbiddenOwn => 403
  | .updated _ => 200
  | .saveError => 500

/-- PUT /appointment/:id handler (after authenticateUser). Role neither
doctor nor admin: 403 (before any lookup). Appointment unresolved: 404.
Doctor not owning the appointment: 403. Otherwise `appointment.status =
status; appointment.save()`: the route itself never inspects the status
value, but save runs the schema validation (the `enum` on status), whose
failure is the caught 500 branch. -/
def updateAppointmentStatus (db : List Appointment) (actor : User) (aid : Nat)
    (newStatus : String) : UpdateResult × List Appointment :=
  if actor.role ≠ "doctor" ∧ actor.role ≠ "admin" then (.forbiddenRole, db)
  else
    match findAppointmentById db aid with
    | none => (.notFound, db)
    | some appt =>
      if actor.role = "doctor" ∧ appt.doctor ≠ actor.id then (.forbiddenOwn, db)
      else
        let upd : Appointment := { appt with status := newStatus }
        if appointmentValidate upd then
          (.updated upd, db.map (fun b => if b.id = aid then { b with status := newStatus } else b))
        else (.saveError, db)

/-! ### DELETE /appointment/:id : cancel an appointment -/

inductive CancelResult where
  | notFound
  | forbiddenOwn
  | forbiddenRole
  | canceled
deriving Repr, DecidableEq

/-- HTTP status of each cancel outcome, from the route's res.status calls. -/
def CancelResult.httpStatus : CancelResult → Nat
  | .notFound => 404
  | .forbiddenOwn => 403
  | .forbiddenRole => 403
  | .canceled => 200

/-- DELETE /appointment/:id handler (after authenticateUser). Lookup first:
unresolved id is 404 for every actor. Then: a patient not owning the
appointment is 403; a role that is neither patient nor admin is 403; the
remaining cases (owning patient, any admin) delete the record. -/
def cancelAppointment (db : List Appointment) (actor : User) (aid : Nat) :
    CancelResult × List Appointment :=
  match findAppointmentById db aid with
  | none => (.notFound, db)
  | some appt =>
    if actor.role = "patient" ∧ appt.patient ≠ actor.id then (.forbiddenOwn, db)
    else if actor.role ≠ "patient" ∧ actor.role ≠ "admin" then (.forbiddenRole, db)
    else (.canceled, db.filter (fun a => a.id ≠ aid))

/-! ### User routes (src/unnamed/part_001, routes/users.js) -/

/-- Model of `bcrypt.hash(password, salt)` with the route's fixed salt of 10.
The external library is modelled by its contract: hashing is an injective
tagging of the password, so that compare accepts exactly the hashed password. -/
def bcryptHash (password : String) : String := "bcrypt10$" ++ password

/-- Model of `bcrypt.compare(password, stored)`: accepts exactly when the
stored hash is the hash of the presented password. -/
def bcryptCompare (password stored : String) : Prop := stored = bcryptHash password

instance (password stored : String) : Decidable (bcryptCompare password stored) := by
  unfold bcryptCompare; exact inferInstance

/-- The payload `jwt.sign` embeds in the issued token: `{ id, name, role }`.
Signing and the 1h expiry are external; decoding a token issued here
recovers exactly these claims. -/
structure TokenClaims where
  id : Nat
  name : String
  role : String
deriving Repr, DecidableEq

/-- A user object as serialized into a JSON response. `password` is `some`
hash when the response carries the stored password field and `none` when the
route strips it (login's rest-destructuring, `.select('-password')`). -/
structure UserView where
  id : Nat
  name : String
  email : String
  password : Option String
  role : String
  gender : String
deriving Repr, DecidableEq

/-- Serialization of a full user document, password field included. -/
def fullView (u : User) : UserView :=
  { id := u.id, name := u.name, email := u.email, password := some u.password,
    role := u.role, gender := u.gender }

/-- Serialization of a user document with the password field removed. -/
def safeView (u : User) : UserView :=
  { id := u.id, name := u.name, email := u.email, password := none,
    role := u.role, gender := u.gender }

inductive RegisterResult where
  | duplicate
  | registered (user : UserView)
deriving Repr, DecidableEq

/-- HTTP status of each register outcome, from the route's res.status calls. -/
def RegisterResult.httpStatus : RegisterResult → Nat
  | .duplicate => 400
  | .registered _ => 201

/-- POST /user/register handler. `User.findOne({email})` hits: 400. Otherwise
the new user is saved with the bcrypt hash of the password and the response
returns the full new user document (password hash included); `newId` models
the fresh ObjectId. models/User.js is not under src/; per the spec its create
fails only on duplicate email, so no further save-time validation applies. -/
def registerUser (users : List User) (name email password role gender : String)
    (newId : Nat) : RegisterResult × List User :=
  match findUserByEmail users email with
  | some _ => (.duplicate, users)
  | none =>
    let newUser : User :=
      { id := newId, name := name, email := email,
        password := bcryptHash password, role := role, gender := gender }
    (.registered (fullView newUser), users ++ [newUser])

inductive LoginResult where
  | invalidCredentials
  | success (user : UserView) (token : TokenClaims)
deriving Repr, DecidableEq

/-- HTTP status of each login outcome, from the route's res.status calls. -/
def LoginResult.httpStatus : LoginResult → Nat
  | .invalidCredentials => 401
  | .success _ _ => 200

/-- POST /user/login handler. Unknown email: 401. `bcrypt.compare` failure:
401. Otherwise a token over `{ id, name, role }` is signed and the response
carries the user without its password field. -/
def loginUser (users : List User) (email password : String) : LoginResult :=
  match findUserByEmail users email with
  | none => .invalidCredentials
  | some user =>
    if bcryptCompare password user.password then
      .success (safeView user) { id := user.id, name := user.name, role := user.role }
    else .invalidCredentials

/-- GET /user/ handler: `User.find()`, serialized in full (password included);
no Access Guard on this route. -/
def getAllUsers (users : List User) : List UserView :=
  users.map fullView

/-- GET /user/find/doctors handler: `User.find({role:'doctor'}).select('-password')`. -/
def findDoctors (users : List User) : List UserView :=
  (users.filter (fun u => u.role = "doctor")).map safeView

/-! ### Helper lemmas -/

/-- Deleting every record with the target id makes the id unresolvable. -/
theorem findAppointmentById_filter_ne (db : List Appointment) (aid : Nat) :
    findAppointmentById (db.filter (fun a => a.id ≠ aid)) aid = none := by
  rw [findAppointmentById, List.find?_eq_none]
  intro x hx
  rw [List.mem_filter] at hx
  simpa using hx.2

/-- Reduction of the update route once the actor is authorized (admin, or a
doctor owning the target): only the save-time validation remains. -/
theorem updateAppointmentStatus_authorized (db : List Appointment) (actor : User)
    (aid : Nat) (s : String) (appt : Appointment)
    (hfind : findAppointmentById db aid = some appt)
    (hrole : actor.role = "admin" ∨ (actor.role = "doctor" ∧ appt.doctor = actor.id)) :
    updateAppointmentStatus db actor aid s =
      if appointmentValidate { appt with status := s } then
        (UpdateResult.updated { appt with status := s },
         db.map (fun b => if b.id = aid then { b with status := s } else b))
      else (UpdateResult.saveError, db) := by
  rcases hrole with h | ⟨h1, h2⟩
  · simp [updateAppointmentStatus, hfind, h]
  · simp [updateAppointmentStatus, hfind, h1, h2]

/-- Reduction of the book route once both gates pass (patient actor, doctorId
resolving to a role=doctor user): only the save-time validation remains. -/
theorem bookAppointment_allowed (users : List User) (db : List Appointment)
    (actor : User) (body : BookBody) (newId now : Nat) (d : User)
    (hrole : actor.role = "patient")
    (hfind : findUserById users body.doctorId = some d)
    (hd : d.role = "doctor") :
    bookAppointment users db actor body newId now =
      if appointmentValidate
          { id := newId, patient := actor.id, doctor := body.doctorId,
            date := body.date, time := body.time, status := "pending",
            reason := body.reason, createdAt := now } then
        (BookResult.booked
          { id := newId, patient := actor.id, doctor := body.doctorId,
            date := body.date, time := body.time, status := "pending",
            reason := body.reason, createdAt := now },
         db ++
           [{ id := newId, patient := actor.id, doctor := body.doctorId,
              date := body.date, time := body.time, status := "pending",
              reason := body.reason, createdAt := now }])
      else (BookResult.saveError, db) := by
  simp [bookAppointment, hrole, hfind, hd]

/-! ### Claim theorems -/

/-- C2: the claim fails as stated. At the concrete input of a present but
invalid credential, the Access Guard answers HTTP 400, which is not the 401
the claim asserts. -/
theorem c2_counterexample :
    authenticateUser [] (some Credential.invalid) = AuthResult.err 400 "Invalid token" ∧
    AuthResult.err 400 "Invalid token" ≠ AuthResult.err 401 "Invalid token" :=
  ⟨rfl, by decide⟩

/-- C2 (amended): the Access Guard rejects a present but invalid credential
(malformed, wrongly signed, or expired — jwt.verify throws) with HTTP 400;
the 401 rejections are a missing credential and a verified credential whose
embedded user id no longer resolves. -/
theorem c2_amended (users : List User) :
    authenticateUser users (some Credential.invalid) = AuthResult.err 400 "Invalid token" ∧
    authenticateUser users none = AuthResult.err 401 "Access denied. No token provided." ∧
    (∀ did : Nat, findUserById users did = none →
      authenticateUser users (some (Credential.valid did)) =
        AuthResult.err 401 "Invalid token") := by
  refine ⟨rfl, rfl, ?_⟩
  intro did h
  simp [authenticateUser, h]

/-- C2 witness: the amended statement at a concrete input. -/
theorem c2_witness :
    authenticateUser [] (some (Credential.valid 0)) = AuthResult.err 401 "Invalid token" :=
  (c2_amended []).2.2 0 rfl

/-- C9: the two mutation routes interleave lookup and authorization in
opposite orders. In UpdateStatus the role gate precedes the lookup, so a
role outside doctor/admin receives 403 even on an unresolvable id; in Cancel
the lookup comes first, so every actor receives 404 on an unresolvable id. -/
theorem c9_check_order (db : List Appointment) (actor : User) (aid : Nat) (s : String) :
    (actor.role ≠ "doctor" → actor.role ≠ "admin" → findAppointmentById db aid = none →
      updateAppointmentStatus db actor aid s = (UpdateResult.forbiddenRole, db) ∧
      UpdateResult.forbiddenRole.httpStatus = 403) ∧
    (findAppointmentById db aid = none →
      cancelAppointment db actor aid = (CancelResult.notFound, db) ∧
      CancelResult.notFound.httpStatus = 404) := by
  constructor
  · intro h1 h2 _
    exact ⟨by simp [updateAppointmentStatus, h1, h2], rfl⟩
  · intro h
    exact ⟨by simp [cancelAppointment, h], rfl⟩

/-- C9 witness: concrete store with no appointment with id 9: a patient
actor gets 403 from the update route but 404 from the cancel route. -/
theorem c9_witness :
    updateAppointmentStatus []
      { id := 3, name := "pat", email := "p@x", password := "h", role := "patient",
        gender := "f" } 9 "confirmed" = (UpdateResult.forbiddenRole, []) ∧
    cancelAppointment []
      { id := 3, name := "pat", email := "p@x", password := "h", role := "patient",
        gender := "f" } 9 = (CancelResult.notFound, []) := by
  have h := c9_check_order []
    { id := 3, name := "pat", email := "p@x", password := "h", role := "patient",
      gender := "f" } 9 "confirmed"
  exact ⟨(h.1 (by decide) (by decide) rfl).1, (h.2 rfl).1⟩

/-- C3: cancel policy. An unresolvable id is NotFound for every actor; a
patient deletes exactly their own appointment; a doctor is denied
unconditionally, even for their own appointment; an admin always succeeds;
and a successful cancel removes the record. -/
theorem c3_cancel_policy (db : List Appointment) (actor : User) (aid : Nat)
    (appt : Appointment) :
    (findAppointmentById db aid = none →
      cancelAppointment db actor aid = (CancelResult.notFound, db)) ∧
    (actor.role = "patient" → findAppointmentById db aid = some appt →
      (appt.patient = actor.id →
        cancelAppointment db actor aid =
          (CancelResult.canceled, db.filter (fun a => a.id ≠ aid))) ∧
      (appt.patient ≠ actor.id →
        cancelAppointment db actor aid = (CancelResult.forbiddenOwn, db))) ∧
    (actor.role = "doctor" → findAppointmentById db aid = some appt →
      cancelAppointment db actor aid = (CancelResult.forbiddenRole, db)) ∧
    (actor.role = "admin" → findAppointmentById db aid = some appt →
      cancelAppointment db actor aid =
        (CancelResult.canceled, db.filter (fun a => a.id ≠ aid))) ∧
    findAppointmentById (db.filter (fun a => a.id ≠ aid)) aid = none := by
  refine ⟨?_, ?_, ?_, ?_, findAppointmentById_filter_ne db aid⟩
  · intro h
    simp [cancelAppointment, h]
  · intro hrole hfind
    constructor
    · intro hown
      simp [cancelAppointment, hfind, hrole, hown]
    · intro hown
      simp [cancelAppointment, hfind, hrole, hown]
  · intro hrole hfind
    simp [cancelAppointment, hfind, hrole]
  · intro hrole hfind
    simp [cancelAppointment, hfind, hrole]

/-- C3 witness: concrete store with one appointment owned by patient 10 with
doctor 2; the owning patient cancels it, a doctor actor is denied, an admin
succeeds, and an unresolvable id is NotFound. -/
theorem c3_witness :
    cancelAppointment
      [{ id := 1, patient := 10, doctor := 2, date := 20240501, time := "10:00",
         status := "pending", reason := "checkup", createdAt := 111 }]
      { id := 10, name := "pat", email := "p@x", password := "h", role := "patient",
        gender := "f" } 1 = (CancelResult.canceled, []) ∧
    cancelAppointment
      [{ id := 1, patient := 10, doctor := 2, date := 20240501, time := "10:00",
         status := "pending", reason := "checkup", createdAt := 111 }]
      { id := 2, name := "doc", email := "d@x", password := "h", role := "doctor",
        gender := "m" } 1
      = (CancelResult.forbiddenRole,
         [{ id := 1, patient := 10, doctor := 2, date := 20240501, time := "10:00",
            status := "pending", reason := "checkup", createdAt := 111 }]) ∧
    cancelAppointment
      [{ id := 1, patient := 10, doctor := 2, date := 20240501, time := "10:00",
         status := "pending", reason := "checkup", createdAt := 111 }]
      { id := 99, name := "adm", email := "a@x", password := "h", role := "admin",
        gender := "f" } 1 = (CancelResult.canceled, []) ∧
    cancelAppointment
      [{ id := 1, patient := 10, doctor := 2, date := 20240501, time := "10:00",
         status := "pending", reason := "checkup", createdAt := 111 }]
      { id := 10, name := "pat", email := "p@x", password := "h", role := "patient",
        gender := "f" } 5
      = (CancelResult.notFound,
         [{ id := 1, patient := 10, doctor := 2, date := 20240501, time := "10:00",
            status := "pending", reason := "checkup", createdAt := 111 }]) := by
  refine ⟨?_, ?_, ?_, ?_⟩
  · have h := (c3_cancel_policy
      [{ id := 1, patient := 10, doctor := 2, date := 20240501, time := "10:00",
         status := "pending", reason := "checkup", createdAt := 111 }]
      { id := 10, name := "pat", email := "p@x", password := "h", role := "patient",
        gender := "f" } 1
      { id := 1, patient := 10, doctor := 2, date := 20240501, time := "10:00",
        status := "pending", reason := "checkup", createdAt := 111 }).2.1 rfl rfl
    simpa using h.1 rfl
  · have h := (c3_cancel_policy
      [{ id := 1, patient := 10, doctor := 2, date := 20240501, time := "10:00",
         status := "pending", reason := "checkup", createdAt := 111 }]
      { id := 2, name := "doc", email := "d@x", password := "h", role := "doctor",
        gender := "m" } 1
      { id := 1, patient := 10, doctor := 2, date := 20240501, time := "10:00",
        status := "pending", reason := "checkup", createdAt := 111 }).2.2.1 rfl rfl
    simpa using h
  · have h := (c3_cancel_policy
      [{ id := 1, patient := 10, doctor := 2, date := 20240501, time := "10:00",
         status := "pending", reason := "checkup", createdAt := 111 }]
      { id := 99, name := "adm", email := "a@x", password := "h", role := "admin",
        gender := "f" } 1
      { id := 1, patient := 10, doctor := 2, date := 20240501, time := "10:00",
        status := "pending", reason := "checkup", createdAt := 111 }).2.2.2.1 rfl rfl
    simpa using h
  · have h := (c3_cancel_policy
      [{ id := 1, patient := 10, doctor := 2, date := 20240501, time := "10:00",
         status := "pending", reason := "checkup", createdAt := 111 }]
      { id := 10, name := "pat", email := "p@x", password := "h", role := "patient",
        gender := "f" } 5
      { id := 1, patient := 10, doctor := 2, date := 20240501, time := "10:00",
        status := "pending", reason := "checkup", createdAt := 111 }).1 rfl
    simpa using h

/-- C1: the claim fails as stated. An admin (authorized) updating an existing
appointment with the string "garbage" does not succeed: the schema's enum
validator rejects it at save, the route answers 500, and the store keeps the
old status. -/
theorem c1_counterexample :
    updateAppointmentStatus
      [{ id := 1, patient := 10, doctor := 2, date := 20240501, time := "10:00",
         status := "pending", reason := "checkup", createdAt := 111 }]
      { id := 5, name := "root", email := "adm@x", password := "h", role := "admin",
        gender := "f" } 1 "garbage"
    = (UpdateResult.saveError,
       [{ id := 1, patient := 10, doctor := 2, date := 20240501, time := "10:00",
          status := "pending", reason := "checkup", createdAt := 111 }]) ∧
    UpdateResult.saveError.httpStatus = 500 := by
  decide

/-- C1 (amended): the route itself never validates newStatus — any string is
passed through to save — but mongoose save runs the AppointmentSchema enum
validator: for an authorized actor and an existing (otherwise valid)
appointment, the update succeeds with the given string exactly when the
string is one of the four enumerated values; any other string makes save
fail, the route answer 500, and the store unchanged. -/
theorem c1_amended (db : List Appointment) (actor : User) (aid : Nat) (s : String)
    (appt : Appointment)
    (hrole : actor.role = "admin" ∨ (actor.role = "doctor" ∧ appt.doctor = actor.id))
    (hfind : findAppointmentById db aid = some appt)
    (htime : appt.time ≠ "") (hreason : appt.reason ≠ "") :
    (s ∈ statusEnum →
      updateAppointmentStatus db actor aid s =
        (UpdateResult.updated { appt with status := s },
         db.map (fun b => if b.id = aid then { b with status := s } else b))) ∧
    (s ∉ statusEnum →
      updateAppointmentStatus db actor aid s = (UpdateResult.saveError, db)) := by
  rw [updateAppointmentStatus_authorized db actor aid s appt hfind hrole]
  constructor
  · intro hs
    rw [if_pos ⟨htime, hreason, hs⟩]
  · intro hs
    rw [if_neg (fun hv => hs hv.2.2)]

/-- C1 witness: the amended statement at a concrete input, on both sides of
the enum: "confirmed" goes through, "garbage2" is rejected with 500. -/
theorem c1_witness :
    updateAppointmentStatus
      [{ id := 1, patient := 10, doctor := 2, date := 20240501, time := "10:00",
         status := "pending", reason := "checkup", createdAt := 111 }]
      { id := 5, name := "root", email := "adm@x", password := "h", role := "admin",
        gender := "f" } 1 "confirmed"
    = (UpdateResult.updated
        { id := 1, patient := 10, doctor := 2, date := 20240501, time := "10:00",
          status := "confirmed", reason := "checkup", createdAt := 111 },
       [{ id := 1, patient := 10, doctor := 2, date := 20240501, time := "10:00",
          status := "confirmed", reason := "checkup", createdAt := 111 }]) ∧
    updateAppointmentStatus
      [{ id := 1, patient := 10, doctor := 2, date := 20240501, time := "10:00",
         status := "pending", reason := "checkup", createdAt := 111 }]
      { id := 5, name := "root", email := "adm@x", password := "h", role := "admin",
        gender := "f" } 1 "garbage2"
    = (UpdateResult.saveError,
       [{ id := 1, patient := 10, doctor := 2, date := 20240501, time := "10:00",
          status := "pending", reason := "checkup", createdAt := 111 }]) := by
  constructor
  · have h := (c1_amended
      [{ id := 1, patient := 10, doctor := 2, date := 20240501, time := "10:00",
         status := "pending", reason := "checkup", createdAt := 111 }]
      { id := 5, name := "root", email := "adm@x", password := "h", role := "admin",
        gender := "f" } 1 "confirmed"
      { id := 1, patient := 10, doctor := 2, date := 20240501, time := "10:00",
        status := "pending", reason := "checkup", createdAt := 111 }
      (Or.inl rfl) rfl (by decide) (by decide)).1 (by decide)
    simpa using h
  · have h := (c1_amended
      [{ id := 1, patient := 10, doctor := 2, date := 20240501, time := "10:00",
         status := "pending", reason := "checkup", createdAt := 111 }]
      { id := 5, name := "root", email := "adm@x", password := "h", role := "admin",
        gender := "f" } 1 "garbage2"
      { id := 1, patient := 10, doctor := 2, date := 20240501, time := "10:00",
        status := "pending", reason := "checkup", createdAt := 111 }
      (Or.inl rfl) rfl (by decide) (by decide)).2 (by decide)
    simpa using h

/-- C4: the claim fails as stated. A doctor updating an appointment they own
(A.doctor = D.id) does not succeed when the supplied status string is outside
the enumeration: the save fails and the route answers 500, so "succeeds iff
A.doctor == D.id" is false in the forward direction. -/
theorem c4_counterexample :
    updateAppointmentStatus
      [{ id := 7, patient := 30, doctor := 4, date := 20240611, time := "09:30",
         status := "confirmed", reason := "followup", createdAt := 222 }]
      { id := 4, name := "drbob", email := "bob@x", password := "h2", role := "doctor",
        gender := "m" } 7 "approved"
    = (UpdateResult.saveError,
       [{ id := 7, patient := 30, doctor := 4, date := 20240611, time := "09:30",
          status := "confirmed", reason := "followup", createdAt := 222 }]) ∧
    (∀ a : Appointment,
      UpdateResult.saveError ≠ UpdateResult.updated a) := by
  exact ⟨by decide, fun a h => UpdateResult.noConfusion h⟩

/-- C4 (amended): for an existing (otherwise valid) appointment and a status
value inside the enumeration, a doctor's update succeeds iff the appointment
is their own, and is Forbidden otherwise; an admin's update always succeeds;
every other role is Forbidden before any lookup. -/
theorem c4_amended (db : List Appointment) (actor : User) (aid : Nat) (s : String)
    (appt : Appointment)
    (hfind : findAppointmentById db aid = some appt)
    (htime : appt.time ≠ "") (hreason : appt.reason ≠ "")
    (hs : s ∈ statusEnum) :
    (actor.role = "doctor" →
      (((updateAppointmentStatus db actor aid s).1 =
          UpdateResult.updated { appt with status := s }) ↔ appt.doctor = actor.id)) ∧
    (actor.role = "doctor" → appt.doctor ≠ actor.id →
      updateAppointmentStatus db actor aid s = (UpdateResult.forbiddenOwn, db)) ∧
    (actor.role = "admin" →
      (updateAppointmentStatus db actor aid s).1 =
        UpdateResult.updated { appt with status := s }) ∧
    (actor.role ≠ "doctor" → actor.role ≠ "admin" →
      updateAppointmentStatus db actor aid s = (UpdateResult.forbiddenRole, db)) := by
  have hdenied : actor.role = "doctor" → appt.doctor ≠ actor.id →
      updateAppointmentStatus db actor aid s = (UpdateResult.forbiddenOwn, db) := by
    intro h1 h2
    simp [updateAppointmentStatus, hfind, h1, h2]
  refine ⟨?_, hdenied, ?_, ?_⟩
  · intro h1
    constructor
    · intro hupd
      by_contra hown
      rw [hdenied h1 hown] at hupd
      exact UpdateResult.noConfusion hupd
    · intro hown
      rw [updateAppointmentStatus_authorized db actor aid s appt hfind (Or.inr ⟨h1, hown⟩)]
      rw [if_pos ⟨htime, hreason, hs⟩]
  · intro h1
    rw [updateAppointmentStatus_authorized db actor aid s appt hfind (Or.inl h1)]
    rw [if_pos ⟨htime, hreason, hs⟩]
  · intro h1 h2
    simp [updateAppointmentStatus, h1, h2]

/-- C4 witness: the amended statement at concrete inputs: doctor 4 updates
their own appointment to "completed" (success), doctor 8 is denied on the
same appointment, and a patient actor is denied outright. -/
theorem c4_witness :
    (updateAppointmentStatus
      [{ id := 7, patient := 30, doctor := 4, date := 20240611, time := "09:30",
         status := "confirmed", reason := "followup", createdAt := 222 }]
      { id := 4, name := "drbob", email := "bob@x", password := "h2", role := "doctor",
        gender := "m" } 7 "completed").1
    = UpdateResult.updated
        { id := 7, patient := 30, doctor := 4, date := 20240611, time := "09:30",
          status := "completed", reason := "followup", createdAt := 222 } ∧
    updateAppointmentStatus
      [{ id := 7, patient := 30, doctor := 4, date := 20240611, time := "09:30",
         status := "confirmed", reason := "followup", createdAt := 222 }]
      { id := 8, name := "dreve", email := "eve@x", password := "h3", role := "doctor",
        gender := "f" } 7 "completed"
    = (UpdateResult.forbiddenOwn,
       [{ id := 7, patient := 30, doctor := 4, date := 20240611, time := "09:30",
          status := "confirmed", reason := "followup", createdAt := 222 }]) ∧
    updateAppointmentStatus
      [{ id := 7, patient := 30, doctor := 4, date := 20240611, time := "09:30",
         status := "confirmed", reason := "followup", createdAt := 222 }]
      { id := 30, name := "pam", email := "pam@x", password := "h4", role := "patient",
        gender := "f" } 7 "completed"
    = (UpdateResult.forbiddenRole,
       [{ id := 7, patient := 30, doctor := 4, date := 20240611, time := "09:30",
          status := "confirmed", reason := "followup", createdAt := 222 }]) := by
  refine ⟨?_, ?_, ?_⟩
  · have h := ((c4_amended
      [{ id := 7, patient := 30, doctor := 4, date := 20240611, time := "09:30",
         status := "confirmed", reason := "followup", createdAt := 222 }]
      { id := 4, name := "drbob", email := "bob@x", password := "h2", role := "doctor",
        gender := "m" } 7 "completed"
      { id := 7, patient := 30, doctor := 4, date := 20240611, time := "09:30",
        status := "confirmed", reason := "followup", createdAt := 222 }
      rfl (by decide) (by decide) (by decide)).1 rfl).2 rfl
    simpa using h
  · exact (c4_amended
      [{ id := 7, patient := 30, doctor := 4, date := 20240611, time := "09:30",
         status := "confirmed", reason := "followup", createdAt := 222 }]
      { id := 8, name := "dreve", email := "eve@x", password := "h3", role := "doctor",
        gender := "f" } 7 "completed"
      { id := 7, patient := 30, doctor := 4, date := 20240611, time := "09:30",
        status := "confirmed", reason := "followup", createdAt := 222 }
      rfl (by decide) (by decide) (by decide)).2.1 rfl (by decide)
  · exact (c4_amended
      [{ id := 7, patient := 30, doctor := 4, date := 20240611, time := "09:30",
         status := "confirmed", reason := "followup", createdAt := 222 }]
      { id := 30, name := "pam", email := "pam@x", password := "h4", role := "patient",
        gender := "f" } 7 "completed"
      { id := 7, patient := 30, doctor := 4, date := 20240611, time := "09:30",
        status := "confirmed", reason := "followup", createdAt := 222 }
      rfl (by decide) (by decide) (by decide)).2.2.2 (by decide) (by decide)

/-- C5: booking is gated on role before payload: any non-patient actor is
denied (403) whatever the body; for a patient, a doctorId that resolves to no
user, or to a user whose role is not doctor, is NotFound (404); and the
request passes both gates exactly when the actor is a patient and the
doctorId resolves to a role=doctor user. -/
theorem c5_book_policy (users : List User) (db : List Appointment) (actor : User)
    (body : BookBody) (newId now : Nat) :
    (actor.role ≠ "patient" →
      bookAppointment users db actor body newId now = (BookResult.forbidden, db)) ∧
    (findUserById users body.doctorId = none → actor.role = "patient" →
      bookAppointment users db actor body newId now = (BookResult.doctorNotFound, db)) ∧
    (∀ d, findUserById users body.doctorId = some d → d.role ≠ "doctor" →
      actor.role = "patient" →
      bookAppointment users db actor body newId now = (BookResult.doctorNotFound, db)) ∧
    (((bookAppointment users db actor body newId now).1 ≠ BookResult.forbidden ∧
      (bookAppointment users db actor body newId now).1 ≠ BookResult.doctorNotFound) ↔
      (actor.role = "patient" ∧
        ∃ d, findUserById users body.doctorId = some d ∧ d.role = "doctor")) := by
  have hforb : actor.role ≠ "patient" →
      bookAppointment users db actor body newId now = (BookResult.forbidden, db) := by
    intro h
    simp [bookAppointment, h]
  have hnone : findUserById users body.doctorId = none → actor.role = "patient" →
      bookAppointment users db actor body newId now = (BookResult.doctorNotFound, db) := by
    intro hfind h
    simp [bookAppointment, hfind, h]
  have hnotdoc : ∀ d, findUserById users body.doctorId = some d → d.role ≠ "doctor" →
      actor.role = "patient" →
      bookAppointment users db actor body newId now = (BookResult.doctorNotFound, db) := by
    intro d hfind hd h
    simp [bookAppointment, hfind, hd, h]
  refine ⟨hforb, hnone, hnotdoc, ?_, ?_⟩
  · rintro ⟨h1, h2⟩
    by_cases hrole : actor.role = "patient"
    · refine ⟨hrole, ?_⟩
      cases hfind : findUserById users body.doctorId with
      | none => exact absurd (congrArg Prod.fst (hnone hfind hrole)) h2
      | some d =>
        by_cases hd : d.role = "doctor"
        · exact ⟨d, rfl, hd⟩
        · exact absurd (congrArg Prod.fst (hnotdoc d hfind hd hrole)) h2
    · exact absurd (congrArg Prod.fst (hforb hrole)) h1
  · rintro ⟨hrole, d, hfind, hd⟩
    rw [bookAppointment_allowed users db actor body newId now d hrole hfind hd]
    split <;> simp

/-- C5 witness: concrete user store with one doctor (id 2) and one patient
(id 10): a doctor actor is denied; the patient booking doctorId 2 passes both
gates; the patient booking doctorId 10 (a patient, not a doctor) is NotFound. -/
theorem c5_witness :
    bookAppointment
      [{ id := 2, name := "doc", email := "d@x", password := "h", role := "doctor",
         gender := "m" },
       { id := 10, name := "pat", email := "p@x", password := "h", role := "patient",
         gender := "f" }] []
      { id := 2, name := "doc", email := "d@x", password := "h", role := "doctor",
        gender := "m" }
      { doctorId := 2, date := 20240501, time := "10:00", reason := "checkup",
        status := none } 1 111 = (BookResult.forbidden, []) ∧
    ((bookAppointment
      [{ id := 2, name := "doc", email := "d@x", password := "h", role := "doctor",
         gender := "m" },
       { id := 10, name := "pat", email := "p@x", password := "h", role := "patient",
         gender := "f" }] []
      { id := 10, name := "pat", email := "p@x", password := "h", role := "patient",
        gender := "f" }
      { doctorId := 2, date := 20240501, time := "10:00", reason := "checkup",
        status := none } 1 111).1 ≠ BookResult.forbidden ∧
     (bookAppointment
      [{ id := 2, name := "doc", email := "d@x", password := "h", role := "doctor",
         gender := "m" },
       { id := 10, name := "pat", email := "p@x", password := "h", role := "patient",
         gender := "f" }] []
      { id := 10, name := "pat", email := "p@x", password := "h", role := "patient",
        gender := "f" }
      { doctorId := 2, date := 20240501, time := "10:00", reason := "checkup",
        status := none } 1 111).1 ≠ BookResult.doctorNotFound) ∧
    bookAppointment
      [{ id := 2, name := "doc", email := "d@x", password := "h", role := "doctor",
         gender := "m" },
       { id := 10, name := "pat", email := "p@x", password := "h", role := "patient",
         gender := "f" }] []
      { id := 10, name := "pat", email := "p@x", password := "h", role := "patient",
        gender := "f" }
      { doctorId := 10, date := 20240501, time := "10:00", reason := "checkup",
        status := none } 1 111 = (BookResult.doctorNotFound, []) := by
  refine ⟨?_, ?_, ?_⟩
  · exact (c5_book_policy
      [{ id := 2, name := "doc", email := "d@x", password := "h", role := "doctor",
         gender := "m" },
       { id := 10, name := "pat", email := "p@x", password := "h", role := "patient",
         gender := "f" }] []
      { id := 2, name := "doc", email := "d@x", password := "h", role := "doctor",
        gender := "m" }
      { doctorId := 2, date := 20240501, time := "10:00", reason := "checkup",
        status := none } 1 111).1 (by decide)
  · exact (c5_book_policy
      [{ id := 2, name := "doc", email := "d@x", password := "h", role := "doctor",
         gender := "m" },
       { id := 10, name := "pat", email := "p@x", password := "h", role := "patient",
         gender := "f" }] []
      { id := 10, name := "pat", email := "p@x", password := "h", role := "patient",
        gender := "f" }
      { doctorId := 2, date := 20240501, time := "10:00", reason := "checkup",
        status := none } 1 111).2.2.2.2
      ⟨rfl, { id := 2, name := "doc", email := "d@x", password := "h",
              role := "doctor", gender := "m" }, rfl, rfl⟩
  · exact (c5_book_policy
      [{ id := 2, name := "doc", email := "d@x", password := "h", role := "doctor",
         gender := "m" },
       { id := 10, name := "pat", email := "p@x", password := "h", role := "patient",
         gender := "f" }] []
      { id := 10, name := "pat", email := "p@x", password := "h", role := "patient",
        gender := "f" }
      { doctorId := 10, date := 20240501, time := "10:00", reason := "checkup",
        status := none } 1 111).2.2.1
      { id := 10, name := "pat", email := "p@x", password := "h", role := "patient",
        gender := "f" } (by decide) (by decide) rfl

/-- C6: a successfully booked appointment is created with status "pending",
patient set to the booking actor's id and doctor set to the supplied
doctorId; and the book handler's outcome is independent of any status field
carried in the request body. -/
theorem c6_booked_fields (users : List User) (db : List Appointment) (actor : User)
    (body : BookBody) (newId now : Nat) :
    (∀ a db2, bookAppointment users db actor body newId now = (BookResult.booked a, db2) →
      a.status = "pending" ∧ a.patient = actor.id ∧ a.doctor = body.doctorId) ∧
    (∀ s1 s2 : Option String,
      bookAppointment users db actor { body with status := s1 } newId now =
      bookAppointment users db actor { body with status := s2 } newId now) := by
  constructor
  · intro a db2 h
    simp only [bookAppointment] at h
    split at h
    · simp at h
    · split at h
      · simp at h
      · split at h
        · simp at h
        · split at h
          · simp only [Prod.mk.injEq, BookResult.booked.injEq] at h
            obtain ⟨h1, -⟩ := h
            subst h1
            exact ⟨rfl, rfl, rfl⟩
          · simp at h
  · intro s1 s2
    cases body
    rfl

/-- C6 witness: patient 10 books doctor 2 with a body that smuggles
status := some "confirmed"; the created appointment still has status
"pending", patient 10, doctor 2, and the outcome equals the one with no
status field in the body. -/
theorem c6_witness :
    ((({ id := 1, patient := 10, doctor := 2, date := 20240501, time := "10:00",
         status := "pending", reason := "checkup", createdAt := 111 } :
          Appointment).status = "pending") ∧
      (({ id := 1, patient := 10, doctor := 2, date := 20240501, time := "10:00",
          status := "pending", reason := "checkup", createdAt := 111 } :
           Appointment).patient = 10) ∧
      (({ id := 1, patient := 10, doctor := 2, date := 20240501, time := "10:00",
          status := "pending", reason := "checkup", createdAt := 111 } :
           Appointment).doctor = 2)) ∧
    bookAppointment
      [{ id := 2, name := "doc", email := "d@x", password := "h", role := "doctor",
         gender := "m" }] []
      { id := 10, name := "pat", email := "p@x", password := "h", role := "patient",
        gender := "f" }
      { doctorId := 2, date := 20240501, time := "10:00", reason := "checkup",
        status := some "confirmed" } 1 111 =
    bookAppointment
      [{ id := 2, name := "doc", email := "d@x", password := "h", role := "doctor",
         gender := "m" }] []
      { id := 10, name := "pat", email := "p@x", password := "h", role := "patient",
        gender := "f" }
      { doctorId := 2, date := 20240501, time := "10:00", reason := "checkup",
        status := none } 1 111 := by
  have h := c6_booked_fields
    [{ id := 2, name := "doc", email := "d@x", password := "h", role := "doctor",
       gender := "m" }] []
    { id := 10, name := "pat", email := "p@x", password := "h", role := "patient",
      gender := "f" }
    { doctorId := 2, date := 20240501, time := "10:00", reason := "checkup",
      status := some "confirmed" } 1 111
  refine ⟨h.1
    { id := 1, patient := 10, doctor := 2, date := 20240501, time := "10:00",
      status := "pending", reason := "checkup", createdAt := 111 }
    [{ id := 1, patient := 10, doctor := 2, date := 20240501, time := "10:00",
       status := "pending", reason := "checkup", createdAt := 111 }] (by decide), ?_⟩
  exact h.2 (some "confirmed") none

/-- C7: registering a fresh email and logging in with the same password
succeeds, and the issued token embeds exactly the registered user's id (and
name and role); logging in with a password whose hash comparison fails is
rejected 401, and so is logging in with an email that resolves to no user. -/
theorem c7_register_login_roundtrip :
    (∀ (users : List User) (name email password role gender : String) (newId : Nat),
      findUserByEmail users email = none →
      registerUser users name email password role gender newId =
        (RegisterResult.registered (fullView
           { id := newId, name := name, email := email,
             password := bcryptHash password, role := role, gender := gender }),
         users ++
           [{ id := newId, name := name, email := email,
              password := bcryptHash password, role := role, gender := gender }]) ∧
      loginUser
        (users ++
          [{ id := newId, name := name, email := email,
             password := bcryptHash password, role := role, gender := gender }])
        email password =
        LoginResult.success
          (safeView
            { id := newId, name := name, email := email,
              password := bcryptHash password, role := role, gender := gender })
          { id := newId, name := name, role := role }) ∧
    (∀ (users : List User) (email pw : String),
      (findUserByEmail users email = none →
        loginUser users email pw = LoginResult.invalidCredentials) ∧
      (∀ u, findUserByEmail users email = some u → ¬ bcryptCompare pw u.password →
        loginUser users email pw = LoginResult.invalidCredentials)) := by
  constructor
  · intro users name email password role gender newId h
    refine ⟨by simp [registerUser, h], ?_⟩
    have hfu : findUserByEmail
        (users ++
          [{ id := newId, name := name, email := email,
             password := bcryptHash password, role := role, gender := gender }]) email =
        some { id := newId, name := name, email := email,
               password := bcryptHash password, role := role, gender := gender } := by
      rw [findUserByEmail, List.find?_append]
      rw [findUserByEmail] at h
      rw [h]
      simp
    simp [loginUser, hfu, bcryptCompare]
  · intro users email pw
    constructor
    · intro h
      simp [loginUser, h]
    · intro u hu hc
      simp [loginUser, hu, hc]

/-- C7 witness: alice registers with password "pw" on an empty store, then
logs in with "pw" (success, token id 1) ; logging in as alice with "nope"
fails 401, and logging in with an unknown email fails 401. -/
theorem c7_witness :
    registerUser [] "alice" "a@b" "pw" "patient" "f" 1 =
      (RegisterResult.registered (fullView
         { id := 1, name := "alice", email := "a@b", password := bcryptHash "pw",
           role := "patient", gender := "f" }),
       [{ id := 1, name := "alice", email := "a@b", password := bcryptHash "pw",
          role := "patient", gender := "f" }]) ∧
    loginUser
      [{ id := 1, name := "alice", email := "a@b", password := bcryptHash "pw",
         role := "patient", gender := "f" }] "a@b" "pw" =
      LoginResult.success
        (safeView { id := 1, name := "alice", email := "a@b",
                    password := bcryptHash "pw", role := "patient", gender := "f" })
        { id := 1, name := "alice", role := "patient" } ∧
    loginUser
      [{ id := 1, name := "alice", email := "a@b", password := bcryptHash "pw",
         role := "patient", gender := "f" }] "a@b" "nope" =
      LoginResult.invalidCredentials ∧
    loginUser [] "ghost@x" "pw" = LoginResult.invalidCredentials := by
  have h1 := c7_register_login_roundtrip.1 [] "alice" "a@b" "pw" "patient" "f" 1 rfl
  refine ⟨by simpa using h1.1, by simpa using h1.2, ?_, ?_⟩
  · exact (c7_register_login_roundtrip.2
      [{ id := 1, name := "alice", email := "a@b", password := bcryptHash "pw",
         role := "patient", gender := "f" }] "a@b" "nope").2
      { id := 1, name := "alice", email := "a@b", password := bcryptHash "pw",
        role := "patient", gender := "f" } rfl (by decide)
  · exact (c7_register_login_roundtrip.2 [] "ghost@x" "pw").1 rfl

/-- C8: a successful status update changes only the status field — the
target keeps its patient, doctor, date, time, reason and createdAt, and
every record of the new store agrees with a record of the old store on every
field except possibly status; createdAt is set from the creation-time clock
by the book route and is never touched by update or cancel (cancel only
removes records). -/
theorem c8_update_frame :
    (∀ (db : List Appointment) (actor : User) (aid : Nat) (s : String)
       (a : Appointment) (db2 : List Appointment) (appt : Appointment),
      updateAppointmentStatus db actor aid s = (UpdateResult.updated a, db2) →
      findAppointmentById db aid = some appt →
      (a.patient = appt.patient ∧ a.doctor = appt.doctor ∧ a.date = appt.date ∧
       a.time = appt.time ∧ a.reason = appt.reason ∧ a.createdAt = appt.createdAt) ∧
      (∀ b ∈ db2, ∃ c ∈ db, c.id = b.id ∧ c.patient = b.patient ∧
        c.doctor = b.doctor ∧ c.date = b.date ∧ c.time = b.time ∧
        c.reason = b.reason ∧ c.createdAt = b.createdAt)) ∧
    (∀ (users : List User) (db : List Appointment) (actor : User) (body : BookBody)
       (newId now : Nat) (a : Appointment) (db2 : List Appointment),
      bookAppointment users db actor body newId now = (BookResult.booked a, db2) →
      a.createdAt = now ∧ db2 = db ++ [a]) ∧
    (∀ (db : List Appointment) (actor : User) (aid : Nat),
      ∀ b ∈ (cancelAppointment db actor aid).2, b ∈ db) := by
  refine ⟨?_, ?_, ?_⟩
  · intro db actor aid s a db2 appt h hfind
    simp only [updateAppointmentStatus, hfind] at h
    split at h
    · simp at h
    · split at h
      · simp at h
      · split at h
        · simp only [Prod.mk.injEq, UpdateResult.updated.injEq] at h
          obtain ⟨h1, h2⟩ := h
          subst h1
          subst h2
          refine ⟨⟨rfl, rfl, rfl, rfl, rfl, rfl⟩, ?_⟩
          intro b hb
          rw [List.mem_map] at hb
          obtain ⟨c, hc, hcb⟩ := hb
          refine ⟨c, hc, ?_⟩
          by_cases hid : c.id = aid
          · rw [if_pos hid] at hcb
            subst hcb
            exact ⟨rfl, rfl, rfl, rfl, rfl, rfl, rfl⟩
          · rw [if_neg hid] at hcb
            subst hcb
            exact ⟨rfl, rfl, rfl, rfl, rfl, rfl, rfl⟩
        · simp at h
  · intro users db actor body newId now a db2 h
    simp only [bookAppointment] at h
    split at h
    · simp at h
    · split at h
      · simp at h
      · split at h
        · simp at h
        · split at h
          · simp only [Prod.mk.injEq, BookResult.booked.injEq] at h
            obtain ⟨h1, h2⟩ := h
            subst h1
            subst h2
            exact ⟨rfl, rfl⟩
          · simp at h
  · intro db actor aid b hb
    cases hfind : findAppointmentById db aid with
    | none =>
      simpa [cancelAppointment, hfind] using hb
    | some appt =>
      simp only [cancelAppointment, hfind] at hb
      split at hb
      · exact hb
      · split at hb
        · exact hb
        · exact (List.mem_filter.mp hb).1

/-- C8 witness: an admin sets the status of the stored appointment to
"canceled"; the updated record keeps the original createdAt (111) and
patient (10). -/
theorem c8_witness :
    ({ id := 1, patient := 10, doctor := 2, date := 20240501, time := "10:00",
       status := "canceled", reason := "checkup", createdAt := 111 } :
        Appointment).createdAt =
      ({ id := 1, patient := 10, doctor := 2, date := 20240501, time := "10:00",
         status := "pending", reason := "checkup", createdAt := 111 } :
          Appointment).createdAt ∧
    ({ id := 1, patient := 10, doctor := 2, date := 20240501, time := "10:00",
       status := "canceled", reason := "checkup", createdAt := 111 } :
        Appointment).patient =
      ({ id := 1, patient := 10, doctor := 2, date := 20240501, time := "10:00",
         status := "pending", reason := "checkup", createdAt := 111 } :
          Appointment).patient := by
  have h := (c8_update_frame.1
    [{ id := 1, patient := 10, doctor := 2, date := 20240501, time := "10:00",
       status := "pending", reason := "checkup", createdAt := 111 }]
    { id := 5, name := "root", email := "adm@x", password := "h", role := "admin",
      gender := "f" } 1 "canceled"
    { id := 1, patient := 10, doctor := 2, date := 20240501, time := "10:00",
      status := "canceled", reason := "checkup", createdAt := 111 }
    [{ id := 1, patient := 10, doctor := 2, date := 20240501, time := "10:00",
       status := "canceled", reason := "checkup", createdAt := 111 }]
    { id := 1, patient := 10, doctor := 2, date := 20240501, time := "10:00",
      status := "pending", reason := "checkup", createdAt := 111 }
    (by decide) rfl).1
  exact ⟨h.2.2.2.2.2, h.1⟩

/-- C10: the register response and the list-all-users response carry each
user's stored password hash, while the login response and the list-doctors
response strip the password field. -/
theorem c10_password_exposure :
    (∀ (users : List User) (name email pw role gender : String) (newId : Nat)
       (uv : UserView) (users2 : List User),
      registerUser users name email pw role gender newId =
        (RegisterResult.registered uv, users2) →
      uv.password = some (bcryptHash pw)) ∧
    (∀ (users : List User) (v : UserView), v ∈ getAllUsers users →
      ∃ u ∈ users, v.password = some u.password) ∧
    (∀ (users : List User) (email pw : String) (uv : UserView) (tok : TokenClaims),
      loginUser users email pw = LoginResult.success uv tok → uv.password = none) ∧
    (∀ (users : List User) (v : UserView), v ∈ findDoctors users →
      v.password = none) := by
  refine ⟨?_, ?_, ?_, ?_⟩
  · intro users name email pw role gender newId uv users2 h
    simp only [registerUser] at h
    split at h
    · simp at h
    · simp only [Prod.mk.injEq, RegisterResult.registered.injEq] at h
      obtain ⟨h1, -⟩ := h
      subst h1
      rfl
  · intro users v hv
    rw [getAllUsers, List.mem_map] at hv
    obtain ⟨u, hu, huv⟩ := hv
    subst huv
    exact ⟨u, hu, rfl⟩
  · intro users email pw uv tok h
    simp only [loginUser] at h
    split at h
    · simp at h
    · split at h
      · simp only [LoginResult.success.injEq] at h
        obtain ⟨h1, -⟩ := h
        subst h1
        rfl
      · simp at h
  · intro users v hv
    rw [findDoctors, List.mem_map] at hv
    obtain ⟨u, -, huv⟩ := hv
    subst huv
    rfl

/-- C10 witness: on a store with the registered user bob (a doctor), the
register response view and the list-all view carry `some` password hash,
while the login view and the doctors view carry `none`. -/
theorem c10_witness :
    (fullView { id := 3, name := "bob", email := "b@x", password := bcryptHash "s3",
                role := "doctor", gender := "m" }).password =
      some (bcryptHash "s3") ∧
    (fullView { id := 3, name := "bob", email := "b@x", password := bcryptHash "s3",
                role := "doctor", gender := "m" }).password =
      some ({ id := 3, name := "bob", email := "b@x", password := bcryptHash "s3",
              role := "doctor", gender := "m" } : User).password ∧
    (safeView { id := 3, name := "bob", email := "b@x", password := bcryptHash "s3",
                role := "doctor", gender := "m" }).password = none := by
  refine ⟨?_, ?_, ?_⟩
  · exact c10_password_exposure.1 [] "bob" "b@x" "s3" "doctor" "m" 3
      (fullView { id := 3, name := "bob", email := "b@x", password := bcryptHash "s3",
                  role := "doctor", gender := "m" })
      [{ id := 3, name := "bob", email := "b@x", password := bcryptHash "s3",
         role := "doctor", gender := "m" }] rfl
  · have h := c10_password_exposure.2.1
      [{ id := 3, name := "bob", email := "b@x", password := bcryptHash "s3",
         role := "doctor", gender := "m" }]
      (fullView { id := 3, name := "bob", email := "b@x", password := bcryptHash "s3",
                  role := "doctor", gender := "m" }) (by simp [getAllUsers])
    obtain ⟨u, hu, hp⟩ := h
    rw [List.mem_singleton] at hu
    subst hu
    exact hp
  · exact c10_password_exposure.2.2.2
      [{ id := 3, name := "bob", email := "b@x", password := bcryptHash "s3",
         role := "doctor", gender := "m" }]
      (safeView { id := 3, name := "bob", email := "b@x", password := bcryptHash "s3",
                  role := "doctor", gender := "m" }) (by simp [findDoctors])

end ApptServer
